import Mathlib

/-
Verification of the packaging script `setup.py` of jakecurran/python-rust-util.

The script declares a static configuration descriptor and hands it to the
external build orchestrator (setuptools' entry point).  Its only runtime
behaviour is: read the sibling file `README.md` (a path resolved against the
invoking process's current working directory), build the descriptor from
literal values plus that content, and invoke the orchestrator once.

We embed this shallowly: the filesystem is a map from absolute paths to
optional contents (`none` = absent or unreadable), the orchestrator is a
parameter that may fail, and the module body is a pure function returning the
trace of externally observable events together with the final result.
-/

namespace RustUtilSetup

/-- Binding modes of the external `setuptools_rust` library's `Binding` enum. -/
inductive Binding where
  | NoBinding
  | ExecBinding
  | PyO3
  | RustCPython
deriving DecidableEq, Repr

/-- A native-extension build target, as declared by `setuptools_rust.RustExtension`:
a logical target name, the path to its Cargo manifest, and the binding mode. -/
structure RustExtension where
  target : String
  path : String
  binding : Binding
deriving DecidableEq, Repr

/-- The binding `setuptools_rust.RustExtension` uses when the caller does not
pass one explicitly (the library's keyword default is `Binding.PyO3`). -/
def RustExtension.defaultBinding : Binding := Binding.PyO3

/-- The `RUST_EXTENSIONS` list of `setup.py`:
`[RustExtension('rust_util', 'rust_util/Cargo.toml', binding=Binding.RustCPython)]`. -/
def RUST_EXTENSIONS : List RustExtension :=
  [{ target := "rust_util", path := "rust_util/Cargo.toml",
     binding := Binding.RustCPython }]

/-- The `SETUP_REQUIRES` list of `setup.py`. -/
def SETUP_REQUIRES : List String := ["setuptools", "setuptools-rust", "wheel"]

/-- The configuration descriptor handed to the orchestrator: the keyword
arguments of the `setup(...)` call. -/
structure Descriptor where
  name : String
  author : String
  author_email : String
  description : String
  long_description : String
  version : String
  rust_extensions : List RustExtension
  setup_requires : List String
  zip_safe : Bool
deriving DecidableEq, Repr

/-- The descriptor built by the `setup(...)` call of `setup.py`, given the
content read from the long-description resource file. -/
def setupDescriptor (longDesc : String) : Descriptor :=
  { name := "rust_util"
    author := "Jake Curran"
    author_email := "jake@jakecurran.com"
    description := "Util package to enable Rust code as part of a Python project."
    long_description := longDesc
    version := "1.0"
    rust_extensions := RUST_EXTENSIONS
    setup_requires := SETUP_REQUIRES
    zip_safe := false }

/-- The literal relative path passed to `open` in `setup.py`. -/
def readmePath : String := "README.md"

/-- Resolution of a relative path against the invoking process's current
working directory, as Python's `open` does for a relative argument. -/
def resolve (cwd rel : String) : String := cwd ++ "/" ++ rel

/-- Externally observable events the module body can emit. -/
inductive Event where
  | fileRead (path : String)
  | fileWrite (path : String)
  | netAccess (host : String)
  | spawn (cmd : String)
  | handoff (d : Descriptor)
deriving DecidableEq, Repr

/-- Is the event a file-read attempt? -/
def Event.isRead : Event → Bool
  | .fileRead _ => true
  | _ => false

/-- Is the event a file write? -/
def Event.isWrite : Event → Bool
  | .fileWrite _ => true
  | _ => false

/-- Is the event a network access? -/
def Event.isNet : Event → Bool
  | .netAccess _ => true
  | _ => false

/-- Is the event a process spawn? -/
def Event.isSpawn : Event → Bool
  | .spawn _ => true
  | _ => false

/-- Is the event a handoff of a descriptor to the orchestrator? -/
def Event.isHandoff : Event → Bool
  | .handoff _ => true
  | _ => false

/-- Is the event an input-output effect (read, write, network, or spawn)? -/
def Event.isEffect (e : Event) : Bool :=
  e.isRead || e.isWrite || e.isNet || e.isSpawn

/-- Failures observable at this layer: the local file-access error raised by
`open('README.md')`, or an error raised inside the orchestrator and
propagated through the module unchanged. -/
inductive ModuleError where
  | fileNotFound (path : String)
  | orchestratorError (e : String)
deriving DecidableEq, Repr

/-- The module body of `setup.py`, embedded as a pure function.
`fs` maps absolute paths to contents (`none` = absent or unreadable),
`cwd` is the invoking process's current working directory, and `orch` is
the external build orchestrator (the `setup` entry point of setuptools),
which consumes the descriptor and may itself fail.  The first component is
the trace of externally observable events in program order; the second is
the final result. -/
def runModule (fs : String → Option String) (cwd : String)
    (orch : Descriptor → Except String Unit) :
    List Event × Except ModuleError Descriptor :=
  match fs (resolve cwd readmePath) with
  | none =>
      ([Event.fileRead (resolve cwd readmePath)],
       Except.error (ModuleError.fileNotFound (resolve cwd readmePath)))
  | some content =>
      match orch (setupDescriptor content) with
      | Except.error e =>
          ([Event.fileRead (resolve cwd readmePath),
            Event.handoff (setupDescriptor content)],
           Except.error (ModuleError.orchestratorError e))
      | Except.ok _ =>
          ([Event.fileRead (resolve cwd readmePath),
            Event.handoff (setupDescriptor content)],
           Except.ok (setupDescriptor content))

/-- Concrete witness filesystem: every path readable with content "T". -/
def wFS : String → Option String := fun _ => some "T"

/-- Concrete witness filesystem: no path readable. -/
def wFSnone : String → Option String := fun _ => none

/-- Concrete witness filesystem whose `README.md` content differs by directory:
"A" under `/a`, "B" under `/b`, absent elsewhere. -/
def wFSab : String → Option String := fun p =>
  if p = "/a/README.md" then some "A"
  else if p = "/b/README.md" then some "B"
  else none

/-- Concrete witness orchestrator that always succeeds. -/
def wOrch : Descriptor → Except String Unit := fun _ => Except.ok ()

/-- Concrete witness orchestrator that always fails with a compile error. -/
def wOrchFail : Descriptor → Except String Unit := fun _ =>
  Except.error "compile failure"

/-- C1: in any environment where the long-description resource resolves to a
readable file, the module hands the orchestrator a descriptor whose fields
equal the declared literals: name `rust_util`, author `Jake Curran`, email
`jake@jakecurran.com`, the declared one-line description, version `1.0`,
exactly one extension target named `rust_util` with manifest
`rust_util/Cargo.toml`, build-time dependencies `setuptools`,
`setuptools-rust`, `wheel`, and `zip_safe = false`. -/
theorem setup_descriptor_fields (fs : String → Option String) (cwd : String)
    (orch : Descriptor → Except String Unit) (c : String)
    (h : fs (resolve cwd readmePath) = some c) :
    ∃ d : Descriptor, Event.handoff d ∈ (runModule fs cwd orch).1 ∧
      d.name = "rust_util" ∧
      d.author = "Jake Curran" ∧
      d.author_email = "jake@jakecurran.com" ∧
      d.description =
        "Util package to enable Rust code as part of a Python project." ∧
      d.version = "1.0" ∧
      d.rust_extensions =
        [⟨"rust_util", "rust_util/Cargo.toml", Binding.RustCPython⟩] ∧
      d.setup_requires = ["setuptools", "setuptools-rust", "wheel"] ∧
      d.zip_safe = false := by
  refine ⟨setupDescriptor c, ?_, rfl, rfl, rfl, rfl, rfl, rfl, rfl, rfl⟩
  rcases horch : orch (setupDescriptor c) with e | u <;>
    simp [runModule, h, horch]

/-- Witness for C1 at a concrete environment. -/
theorem setup_descriptor_fields_witness :
    ∃ d : Descriptor, Event.handoff d ∈ (runModule wFS "/proj" wOrch).1 ∧
      d.name = "rust_util" ∧
      d.author = "Jake Curran" ∧
      d.author_email = "jake@jakecurran.com" ∧
      d.description =
        "Util package to enable Rust code as part of a Python project." ∧
      d.version = "1.0" ∧
      d.rust_extensions =
        [⟨"rust_util", "rust_util/Cargo.toml", Binding.RustCPython⟩] ∧
      d.setup_requires = ["setuptools", "setuptools-rust", "wheel"] ∧
      d.zip_safe = false :=
  setup_descriptor_fields wFS "/proj" wOrch "T" rfl

/-- C2: the long-description field of the handed-off descriptor equals the
content of the resource file exactly, with no transformation. -/
theorem setup_long_description (fs : String → Option String) (cwd : String)
    (orch : Descriptor → Except String Unit) (c : String)
    (h : fs (resolve cwd readmePath) = some c) :
    ∃ d : Descriptor, Event.handoff d ∈ (runModule fs cwd orch).1 ∧
      d.long_description = c := by
  refine ⟨setupDescriptor c, ?_, rfl⟩
  rcases horch : orch (setupDescriptor c) with e | u <;>
    simp [runModule, h, horch]

/-- Witness for C2: with the resource containing the literal text "T", the
handed-off descriptor's long description equals "T". -/
theorem setup_long_description_witness :
    ∃ d : Descriptor, Event.handoff d ∈ (runModule wFS "/proj" wOrch).1 ∧
      d.long_description = "T" :=
  setup_long_description wFS "/proj" wOrch "T" rfl

/-- C3: when the resolved resource path is absent or unreadable, the module
fails with the file-access error, the trace consists solely of the single
failed read attempt, and no descriptor is ever handed to the orchestrator. -/
theorem setup_missing_readme (fs : String → Option String) (cwd : String)
    (orch : Descriptor → Except String Unit)
    (h : fs (resolve cwd readmePath) = none) :
    (runModule fs cwd orch).2 =
      Except.error (ModuleError.fileNotFound (resolve cwd readmePath)) ∧
    (runModule fs cwd orch).1 = [Event.fileRead (resolve cwd readmePath)] ∧
    ∀ d : Descriptor, Event.handoff d ∉ (runModule fs cwd orch).1 := by
  simp [runModule, h]

/-- Witness for C3 at a concrete environment with no readable file. -/
theorem setup_missing_readme_witness :
    (runModule wFSnone "/proj" wOrch).2 =
      Except.error (ModuleError.fileNotFound (resolve "/proj" readmePath)) ∧
    (runModule wFSnone "/proj" wOrch).1 =
      [Event.fileRead (resolve "/proj" readmePath)] ∧
    ∀ d : Descriptor, Event.handoff d ∉ (runModule wFSnone "/proj" wOrch).1 :=
  setup_missing_readme wFSnone "/proj" wOrch rfl

/-- C4: descriptor construction is deterministic. Any two invocations whose
environments yield the same resource content hand off identical descriptors:
the sequence of handoff events of the two runs is byte-for-byte equal, in
every field. -/
theorem setup_deterministic (fs fsb : String → Option String)
    (cwd cwdb : String) (orch orchb : Descriptor → Except String Unit)
    (c : String)
    (h : fs (resolve cwd readmePath) = some c)
    (hb : fsb (resolve cwdb readmePath) = some c) :
    (runModule fs cwd orch).1.filter Event.isHandoff =
      (runModule fsb cwdb orchb).1.filter Event.isHandoff ∧
    (runModule fs cwd orch).1.filter Event.isHandoff =
      [Event.handoff (setupDescriptor c)] := by
  rcases horch : orch (setupDescriptor c) with e | u <;>
    rcases horchb : orchb (setupDescriptor c) with eb | ub <;>
      simp [runModule, h, hb, horch, horchb, Event.isHandoff, Event.isRead]

/-- Witness for C4: two distinct environments with equal resource content. -/
theorem setup_deterministic_witness :
    (runModule wFS "/proj" wOrch).1.filter Event.isHandoff =
      (runModule wFS "/other" wOrchFail).1.filter Event.isHandoff ∧
    (runModule wFS "/proj" wOrch).1.filter Event.isHandoff =
      [Event.handoff (setupDescriptor "T")] :=
  setup_deterministic wFS wFS "/proj" "/other" wOrch wOrchFail "T" rfl rfl

/-- C5: the module's only input-output effect, in every environment, is the
single read of the resolved resource path: the trace contains no file write,
no network access, and no process spawn, and its only effect event is that
one read. -/
theorem setup_frame (fs : String → Option String) (cwd : String)
    (orch : Descriptor → Except String Unit) :
    (runModule fs cwd orch).1.filter Event.isEffect =
      [Event.fileRead (resolve cwd readmePath)] := by
  rcases hfs : fs (resolve cwd readmePath) with _ | c
  · simp [runModule, hfs, Event.isEffect, Event.isRead, Event.isWrite,
      Event.isNet, Event.isSpawn]
  · rcases horch : orch (setupDescriptor c) with e | u <;>
      simp [runModule, hfs, horch, Event.isEffect, Event.isRead,
        Event.isWrite, Event.isNet, Event.isSpawn, Event.isHandoff]

/-- C6: in a successful invocation the descriptor is handed to the
orchestrator exactly once, and the handed-off descriptor is exactly the one
constructed from the resource content — no field differs from construction
(the embedding's descriptors are immutable values, so mutation after
construction is impossible and handoff identity is the observable content of
the invariant). -/
theorem setup_single_handoff (fs : String → Option String) (cwd : String)
    (orch : Descriptor → Except String Unit) (c : String)
    (h : fs (resolve cwd readmePath) = some c) :
    (runModule fs cwd orch).1.countP Event.isHandoff = 1 ∧
    Event.handoff (setupDescriptor c) ∈ (runModule fs cwd orch).1 ∧
    ∀ d : Descriptor, Event.handoff d ∈ (runModule fs cwd orch).1 →
      d = setupDescriptor c := by
  rcases horch : orch (setupDescriptor c) with e | u <;>
    simp [runModule, h, horch, List.countP_cons, List.countP_nil,
      Event.isHandoff, Event.isRead]

/-- Witness for C6 at a concrete environment. -/
theorem setup_single_handoff_witness :
    (runModule wFS "/proj" wOrch).1.countP Event.isHandoff = 1 ∧
    Event.handoff (setupDescriptor "T") ∈ (runModule wFS "/proj" wOrch).1 ∧
    ∀ d : Descriptor, Event.handoff d ∈ (runModule wFS "/proj" wOrch).1 →
      d = setupDescriptor "T" :=
  setup_single_handoff wFS "/proj" wOrch "T" rfl

/-- C7: an error raised by the external orchestrator propagates through the
module with its payload unmodified: the script installs no handler that
catches or transforms it. -/
theorem setup_orch_error_propagates (fs : String → Option String)
    (cwd : String) (orch : Descriptor → Except String Unit) (c e : String)
    (h : fs (resolve cwd readmePath) = some c)
    (horch : orch (setupDescriptor c) = Except.error e) :
    (runModule fs cwd orch).2 =
      Except.error (ModuleError.orchestratorError e) := by
  simp [runModule, h, horch]

/-- Witness for C7 with an orchestrator that fails with a compile error. -/
theorem setup_orch_error_propagates_witness :
    (runModule wFS "/proj" wOrchFail).2 =
      Except.error (ModuleError.orchestratorError "compile failure") :=
  setup_orch_error_propagates wFS "/proj" wOrchFail "T" "compile failure"
    rfl rfl

/-- C8: in every environment the read of the resource file is attempted at
most once — on failure it is never retried, and no event of the trace is a
second read attempt. -/
theorem setup_read_at_most_once (fs : String → Option String) (cwd : String)
    (orch : Descriptor → Except String Unit) :
    (runModule fs cwd orch).1.countP Event.isRead ≤ 1 := by
  rcases hfs : fs (resolve cwd readmePath) with _ | c
  · simp [runModule, hfs, List.countP_cons, List.countP_nil, Event.isRead]
  · rcases horch : orch (setupDescriptor c) with e | u <;>
      simp [runModule, hfs, horch, List.countP_cons, List.countP_nil,
        Event.isRead, Event.isHandoff]

/-- C9: the single extension target is declared with the `RustCPython`
binding explicitly, which differs from the library's default binding, and
every descriptor handed to the orchestrator carries exactly that extension
list. -/
theorem setup_binding_rust_cpython (fs : String → Option String)
    (cwd : String) (orch : Descriptor → Except String Unit) (c : String)
    (h : fs (resolve cwd readmePath) = some c) :
    RUST_EXTENSIONS.map RustExtension.binding = [Binding.RustCPython] ∧
    Binding.RustCPython ≠ RustExtension.defaultBinding ∧
    ∀ d : Descriptor, Event.handoff d ∈ (runModule fs cwd orch).1 →
      d.rust_extensions = RUST_EXTENSIONS := by
  refine ⟨rfl, by decide, ?_⟩
  intro d hd
  rcases horch : orch (setupDescriptor c) with e | u <;>
    · simp [runModule, h, horch] at hd
      rw [hd]
      rfl

/-- Witness for C9 at a concrete environment. -/
theorem setup_binding_rust_cpython_witness :
    RUST_EXTENSIONS.map RustExtension.binding = [Binding.RustCPython] ∧
    Binding.RustCPython ≠ RustExtension.defaultBinding ∧
    ∀ d : Descriptor, Event.handoff d ∈ (runModule wFS "/proj" wOrch).1 →
      d.rust_extensions = RUST_EXTENSIONS :=
  setup_binding_rust_cpython wFS "/proj" wOrch "T" rfl

/-- C10: the resource is addressed by the literal relative path `README.md`
resolved against the current working directory: in every environment the one
read attempt targets `cwd ++ "/README.md"`; moreover there is a single
filesystem under which the invocation succeeds from one working directory
and fails from another, and a filesystem under which two working directories
yield descriptors with different long descriptions. -/
theorem setup_readme_cwd_relative :
    readmePath = "README.md" ∧
    (∀ (fs : String → Option String) (cwd : String)
        (orch : Descriptor → Except String Unit),
      (runModule fs cwd orch).1.filter Event.isRead =
        [Event.fileRead (cwd ++ "/" ++ "README.md")]) ∧
    (runModule wFSab "/a" wOrch).2 = Except.ok (setupDescriptor "A") ∧
    (runModule wFSab "/b" wOrch).2 = Except.ok (setupDescriptor "B") ∧
    (runModule wFSab "/c" wOrch).2 =
      Except.error (ModuleError.fileNotFound "/c/README.md") ∧
    setupDescriptor "A" ≠ setupDescriptor "B" := by
  refine ⟨rfl, ?_, rfl, rfl, rfl, by decide⟩
  intro fs cwd orch
  have hres : resolve cwd readmePath = cwd ++ "/" ++ "README.md" := rfl
  rw [← hres]
  rcases hfs : fs (resolve cwd readmePath) with _ | c
  · simp [runModule, hfs, Event.isRead]
  · rcases horch : orch (setupDescriptor c) with e | u <;>
      simp [runModule, hfs, horch, Event.isRead, Event.isHandoff]

end RustUtilSetup
